import Mathlib

/-!
Flappy Flight: the simulation engine of `src/app/page.js`

A shallow embedding of the game engine (gate spawner, physics integrator,
collision and boundary resolver, lifecycle controller) and the properties
of it that the specification states.

JavaScript numbers are modelled as exact rationals `ℚ`.  The two ambient
sources the engine reads are made explicit arguments: `Math.random()` is the
argument `rnd` of every operation that may call `createPipe`, and `Math.sin`
is the argument `msin` of `drawFrame`.  React state and the refs mirroring it
(`status`/`statusRef`, `score`/`scoreRef`, `bestScore`/`bestScoreRef`) are one
field each.
-/

namespace FlappyFlight

/-! ## Constants (page.js lines 5-15) -/

def CANVAS_WIDTH : ℚ := 420
def CANVAS_HEIGHT : ℚ := 640
def GROUND_HEIGHT : ℚ := 88
def BIRD_RADIUS : ℚ := 18
def FRAME_TIME : ℚ := 1000 / 60
def GRAVITY : ℚ := 0.45
def JUMP_STRENGTH : ℚ := -7.2
def PIPE_WIDTH : ℚ := 74
def PIPE_GAP_BASE : ℚ := 160
def PIPE_INTERVAL : ℚ := 1550
def PIPE_SPEED : ℚ := 2.75

/-! ## Data model -/

/-- The three values of `status` / `statusRef.current`. -/
inductive Status where
  | ready
  | running
  | gameover
  deriving DecidableEq, Repr

/-- The object held by `birdRef` (lines 39-44). -/
structure Bird where
  x : ℚ
  y : ℚ
  velocity : ℚ
  idleBase : ℚ
  deriving DecidableEq, Repr

/-- The object returned by `createPipe` (lines 24-30). -/
structure Pipe where
  x : ℚ
  gapCenter : ℚ
  gap : ℚ
  width : ℚ
  scored : Bool
  deriving DecidableEq, Repr

/-- The mutable state of the `Home` component that the engine reads and
writes: the refs `birdRef`, `pipesRef`, `spawnTimerRef`, `lastTimeRef` and
the state/ref pairs `status`, `score`, `bestScore`. -/
structure Engine where
  bird : Bird
  pipes : List Pipe
  spawnTimer : ℚ
  lastTime : ℚ
  status : Status
  score : ℚ
  bestScore : ℚ
  deriving DecidableEq, Repr

/-! ## Gate spawner (lines 17-31) -/

/-- The function `createPipe(score)`; `rnd` is the value of `Math.random()`. -/
def createPipe (score rnd : ℚ) : Pipe :=
  let gap := max 110 (PIPE_GAP_BASE - score * 4)
  let safeTop : ℚ := 80
  let safeBottom := CANVAS_HEIGHT - GROUND_HEIGHT - 80
  let gapCenter := rnd * (safeBottom - safeTop - gap) + safeTop + gap / 2
  { x := CANVAS_WIDTH + PIPE_WIDTH
    gapCenter := gapCenter
    gap := gap
    width := PIPE_WIDTH
    scored := false }

/-! ## Collision detection (lines 308-326) -/

/-- The predicate passed to `pipes.some` in `detectCollision`. -/
def hitsPipe (bird : Bird) (pipe : Pipe) : Bool :=
  let top := bird.y - BIRD_RADIUS
  let bottom := bird.y + BIRD_RADIUS
  let left := bird.x - BIRD_RADIUS
  let right := bird.x + BIRD_RADIUS
  let pipeLeft := pipe.x
  let pipeRight := pipe.x + pipe.width
  let gapTop := pipe.gapCenter - pipe.gap / 2
  let gapBottom := pipe.gapCenter + pipe.gap / 2
  let withinPipe := decide (right > pipeLeft) && decide (left < pipeRight)
  withinPipe && (decide (top < gapTop) || decide (bottom > gapBottom))

/-- The function `detectCollision(bird, pipes)`. -/
def detectCollision (bird : Bird) (pipes : List Pipe) : Bool :=
  pipes.any (hitsPipe bird)

/-! ## Lifecycle controller (lines 61-116) -/

/-- The callback `resetGame`; `rnd` is the random draw of its `createPipe(0)`. -/
def resetGame (s : Engine) (rnd : ℚ) : Engine :=
  let startBirdY := CANVAS_HEIGHT / 2
  { s with
    bird := { x := CANVAS_WIDTH / 3, y := startBirdY, velocity := 0, idleBase := startBirdY }
    pipes := [createPipe 0 rnd]
    spawnTimer := PIPE_INTERVAL * 0.65
    score := 0
    status := Status.ready }

/-- The callback `flap`. -/
def flap (s : Engine) : Engine :=
  { s with bird := { s.bird with velocity := JUMP_STRENGTH } }

/-- The callback `gameOver`. -/
def gameOver (s : Engine) : Engine :=
  if s.status ≠ Status.running then s
  else
    { s with
      status := Status.gameover
      bestScore := if s.score > s.bestScore then s.score else s.bestScore }

/-- The callback `handleInput`; `rnd` is consumed only by the reset branch. -/
def handleInput (s : Engine) (rnd : ℚ) : Engine :=
  match s.status with
  | Status.ready => flap { s with status := Status.running }
  | Status.running => flap s
  | Status.gameover => resetGame s rnd

/-! ## One tick: `drawFrame` (lines 129-183) -/

/-- Lines 133-136: the hover of the ready phase. -/
def idleHover (msin : ℚ → ℚ) (s : Engine) (time : ℚ) : Engine :=
  if s.status = Status.ready then
    { s with bird := { s.bird with y := s.bird.idleBase + msin (time / 325) * 12, velocity := 0 } }
  else s

/-- Lines 139-140: gravity and position integration of the running phase. -/
def integrate (b : Bird) (dt : ℚ) : Bird :=
  let v := b.velocity + GRAVITY * dt
  { b with velocity := v, y := b.y + v * dt }

/-- Lines 142-146, the accumulator: its value after the tick. -/
def spawnTimerAfter (s : Engine) (delta : ℚ) : ℚ :=
  if s.spawnTimer + delta ≥ PIPE_INTERVAL then 0 else s.spawnTimer + delta

/-- Lines 142-146, the gate list after the possible `push`. -/
def pushed (s : Engine) (delta rnd : ℚ) : List Pipe :=
  if s.spawnTimer + delta ≥ PIPE_INTERVAL then s.pipes ++ [createPipe s.score rnd] else s.pipes

/-- Lines 148-153: every gate moved left, gates off the left edge dropped. -/
def movePipes (pipes : List Pipe) (dt : ℚ) : List Pipe :=
  (pipes.map (fun pipe => { pipe with x := pipe.x - PIPE_SPEED * dt })).filter
    (fun pipe => decide (pipe.x + pipe.width > -10))

/-- Lines 155-162: the `forEach` that flags passed gates and counts them.
Returns the gate list and the value of `scoreRef.current` after the loop. -/
def scorePass (bird : Bird) : List Pipe → ℚ → List Pipe × ℚ
  | [], score => ([], score)
  | pipe :: rest, score =>
    if !pipe.scored && decide (pipe.x + pipe.width < bird.x - BIRD_RADIUS) then
      let out := scorePass bird rest (score + 1)
      ({ pipe with scored := true } :: out.1, out.2)
    else
      let out := scorePass bird rest score
      (pipe :: out.1, out.2)

/-- The gates that are alive when the scoring loop of a running tick starts. -/
def survivors (s : Engine) (dt delta rnd : ℚ) : List Pipe :=
  movePipes (pushed s delta rnd) dt

/-- Lines 139-162: the state a running tick reaches just before its collision
check (flyer integrated, accumulator advanced, gates spawned, moved, filtered
and scored). -/
def runningUpdate (s : Engine) (dt delta rnd : ℚ) : Engine :=
  let bird := integrate s.bird dt
  let out := scorePass bird (survivors s dt delta rnd) s.score
  { s with bird := bird, spawnTimer := spawnTimerAfter s delta, pipes := out.1, score := out.2 }

/-- Lines 138-170: the phase-dependent update (`if running ... else if gameover`). -/
def advance (s : Engine) (dt delta rnd : ℚ) : Engine :=
  if s.status = Status.running then
    let s1 := runningUpdate s dt delta rnd
    if detectCollision s1.bird s1.pipes then gameOver s1 else s1
  else if s.status = Status.gameover then
    let v := min (s.bird.velocity + GRAVITY * dt) 12
    { s with bird := { s.bird with velocity := v, y := s.bird.y + v * dt } }
  else s

/-- Lines 172-178: the ground and ceiling clamp. -/
def clampBird (b : Bird) : Bird :=
  if b.y + BIRD_RADIUS ≥ CANVAS_HEIGHT - GROUND_HEIGHT then
    { b with y := CANVAS_HEIGHT - GROUND_HEIGHT - BIRD_RADIUS, velocity := 0 }
  else if b.y - BIRD_RADIUS ≤ 0 then
    { b with y := BIRD_RADIUS, velocity := max 0 b.velocity }
  else b

/-- The engine state just before the boundary clamp of a tick. -/
def beforeClamp (msin : ℚ → ℚ) (s : Engine) (time dt delta rnd : ℚ) : Engine :=
  advance (idleHover msin s time) dt delta rnd

/-- The callback `drawFrame(context, time, dt, delta)` without the painting. -/
def drawFrame (msin : ℚ → ℚ) (s : Engine) (time dt delta rnd : ℚ) : Engine :=
  let s1 := beforeClamp msin s time dt delta rnd
  { s1 with bird := clampBird s1.bird }

/-- The animation callback `render(time)` (lines 209-219). -/
def render (msin : ℚ → ℚ) (s : Engine) (time rnd : ℚ) : Engine :=
  let last := if s.lastTime = 0 then time else s.lastTime
  let delta := time - last
  let dt := min delta 34 / FRAME_TIME
  drawFrame msin { s with lastTime := time } time dt delta rnd

/-- The state of a freshly mounted component (lines 36-59) with stored best
score `best` and first random draw `rnd`. -/
def initial (best rnd : ℚ) : Engine :=
  { bird := { x := CANVAS_WIDTH / 3, y := CANVAS_HEIGHT / 2, velocity := 0,
              idleBase := CANVAS_HEIGHT / 2 }
    pipes := [createPipe 0 rnd]
    spawnTimer := PIPE_INTERVAL * 0.65
    lastTime := 0
    status := Status.ready
    score := 0
    bestScore := best }

/-! ## Unfolding lemmas -/

theorem scorePass_nil (bird : Bird) (score : ℚ) : scorePass bird [] score = ([], score) := rfl

theorem scorePass_cons (bird : Bird) (pipe : Pipe) (rest : List Pipe) (score : ℚ) :
    scorePass bird (pipe :: rest) score =
      if !pipe.scored && decide (pipe.x + pipe.width < bird.x - BIRD_RADIUS) then
        ({ pipe with scored := true } :: (scorePass bird rest (score + 1)).1,
          (scorePass bird rest (score + 1)).2)
      else (pipe :: (scorePass bird rest score).1, (scorePass bird rest score).2) := by
  simp only [scorePass]

theorem hitsPipe_iff (bird : Bird) (pipe : Pipe) :
    hitsPipe bird pipe = true ↔
      (bird.x + 18 > pipe.x ∧ bird.x - 18 < pipe.x + pipe.width) ∧
        (bird.y - 18 < pipe.gapCenter - pipe.gap / 2 ∨
          bird.y + 18 > pipe.gapCenter + pipe.gap / 2) := by
  simp [hitsPipe, BIRD_RADIUS]

theorem clampBird_y_bounds (b : Bird) : 18 ≤ (clampBird b).y ∧ (clampBird b).y ≤ 534 := by
  unfold clampBird
  simp only [CANVAS_HEIGHT, GROUND_HEIGHT, BIRD_RADIUS]
  split_ifs with h1 h2
  · norm_num
  · norm_num
  · push_neg at h1 h2
    constructor <;> linarith

theorem clampBird_ground (b : Bird) (h : b.y + 18 ≥ 552) :
    (clampBird b).y = 534 ∧ (clampBird b).velocity = 0 := by
  unfold clampBird
  simp only [CANVAS_HEIGHT, GROUND_HEIGHT, BIRD_RADIUS]
  rw [if_pos (by linarith)]
  norm_num

/-! ## C6: the gate spawner -/

/-- C6. For every integer score at least 0 and every random draw in `[0, 1)`,
`createPipe` returns an unscored gate at `x = CANVAS_WIDTH + PIPE_WIDTH = 494`
of width 74 whose gap is `max 110 (160 - 4 * score)`, hence at least 110,
non-increasing in the score and equal to 120 at score 10, and whose gap lies
inside the safe band `[80, CANVAS_HEIGHT - GROUND_HEIGHT - 80] = [80, 472]`. -/
theorem createPipe_postcondition (score : ℤ) (rnd : ℚ) (hs : 0 ≤ score)
    (h0 : 0 ≤ rnd) (h1 : rnd < 1) :
    (createPipe score rnd).scored = false ∧
    (createPipe score rnd).x = CANVAS_WIDTH + PIPE_WIDTH ∧
    (createPipe score rnd).x = 494 ∧
    (createPipe score rnd).width = 74 ∧
    (createPipe score rnd).gap = max 110 (160 - 4 * (score : ℚ)) ∧
    110 ≤ (createPipe score rnd).gap ∧
    (∀ (higher : ℤ) (rnd2 : ℚ), score ≤ higher →
      (createPipe higher rnd2).gap ≤ (createPipe score rnd).gap) ∧
    (createPipe 10 rnd).gap = 120 ∧
    80 ≤ (createPipe score rnd).gapCenter - (createPipe score rnd).gap / 2 ∧
    (createPipe score rnd).gapCenter + (createPipe score rnd).gap / 2
      ≤ CANVAS_HEIGHT - GROUND_HEIGHT - 80 ∧
    CANVAS_HEIGHT - GROUND_HEIGHT - 80 = 472 := by
  have hq : (0 : ℚ) ≤ (score : ℚ) := by exact_mod_cast hs
  have hgap : max (110 : ℚ) (160 - (score : ℚ) * 4) ≤ 160 := max_le (by norm_num) (by linarith)
  have hlow : (110 : ℚ) ≤ max (110 : ℚ) (160 - (score : ℚ) * 4) := le_max_left _ _
  have hc : ∀ (k r : ℚ), (createPipe k r).gap = max 110 (160 - k * 4) := fun _ _ => rfl
  have hcen : (createPipe score rnd).gapCenter =
      rnd * (392 - max (110 : ℚ) (160 - (score : ℚ) * 4)) + 80
        + max (110 : ℚ) (160 - (score : ℚ) * 4) / 2 := by
    simp only [createPipe, CANVAS_HEIGHT, GROUND_HEIGHT, PIPE_GAP_BASE]
    norm_num
  refine ⟨rfl, rfl, ?_, rfl, ?_, ?_, ?_, ?_, ?_, ?_, ?_⟩
  · norm_num [createPipe, CANVAS_WIDTH, PIPE_WIDTH]
  · rw [hc, mul_comm]
  · rw [hc]; exact hlow
  · intro higher rnd2 hle
    have hq2 : (score : ℚ) ≤ (higher : ℚ) := by exact_mod_cast hle
    rw [hc, hc]
    exact max_le_max le_rfl (by linarith)
  · rw [hc]; norm_num
  · rw [hc, hcen]
    have : 0 ≤ rnd * (392 - max (110 : ℚ) (160 - (score : ℚ) * 4)) :=
      mul_nonneg h0 (by linarith)
    linarith
  · rw [hc, hcen]
    have : rnd * (392 - max (110 : ℚ) (160 - (score : ℚ) * 4))
        ≤ 1 * (392 - max (110 : ℚ) (160 - (score : ℚ) * 4)) :=
      mul_le_mul_of_nonneg_right h1.le (by linarith)
    norm_num [CANVAS_HEIGHT, GROUND_HEIGHT]
    linarith
  · norm_num [CANVAS_HEIGHT, GROUND_HEIGHT]

/-- Witness of C6: the gate spawned at score 3 with draw 1/2. -/
theorem createPipe_postcondition_witness :
    (createPipe 3 (1 / 2)).gap = max 110 (160 - 4 * 3) ∧
    80 ≤ (createPipe 3 (1 / 2)).gapCenter - (createPipe 3 (1 / 2)).gap / 2 := by
  have h := createPipe_postcondition 3 (1 / 2) (by decide) (by norm_num) (by norm_num)
  exact ⟨by simpa using h.2.2.2.2.1, by simpa using h.2.2.2.2.2.2.2.2.1⟩

/-! ## C2: gate collision -/

/-- C2. `detectCollision` is true exactly when some gate of the list overlaps
the flyer box horizontally while the flyer leaves its gap vertically; so it
is false on the empty list, invariant under permutation of the list, false for
a flyer horizontally inside a gate and vertically within `[gapTop, gapBottom]`
(bounds included), and true once that flyer's top is 1 unit above `gapTop`. -/
theorem detectCollision_spec :
    (∀ (bird : Bird) (pipes : List Pipe),
      detectCollision bird pipes = true ↔
        ∃ pipe ∈ pipes,
          (bird.x + 18 > pipe.x ∧ bird.x - 18 < pipe.x + pipe.width) ∧
            (bird.y - 18 < pipe.gapCenter - pipe.gap / 2 ∨
              bird.y + 18 > pipe.gapCenter + pipe.gap / 2)) ∧
    (∀ bird : Bird, detectCollision bird [] = false) ∧
    (∀ (bird : Bird) (pipes shuffled : List Pipe), pipes.Perm shuffled →
      detectCollision bird pipes = detectCollision bird shuffled) ∧
    (∀ (bird : Bird) (pipe : Pipe),
      pipe.x ≤ bird.x - 18 → bird.x + 18 ≤ pipe.x + pipe.width →
      pipe.gapCenter - pipe.gap / 2 ≤ bird.y - 18 →
      bird.y + 18 ≤ pipe.gapCenter + pipe.gap / 2 →
      detectCollision bird [pipe] = false ∧
      detectCollision { bird with y := pipe.gapCenter - pipe.gap / 2 - 1 + 18 } [pipe] = true) := by
  have spec : ∀ (bird : Bird) (pipes : List Pipe),
      detectCollision bird pipes = true ↔
        ∃ pipe ∈ pipes,
          (bird.x + 18 > pipe.x ∧ bird.x - 18 < pipe.x + pipe.width) ∧
            (bird.y - 18 < pipe.gapCenter - pipe.gap / 2 ∨
              bird.y + 18 > pipe.gapCenter + pipe.gap / 2) := by
    intro bird pipes
    simp only [detectCollision, List.any_eq_true, hitsPipe_iff]
  refine ⟨spec, fun _ => rfl, ?_, ?_⟩
  · intro bird pipes shuffled hperm
    rw [Bool.eq_iff_iff, spec, spec]
    constructor
    · rintro ⟨p, hp, h⟩
      exact ⟨p, hperm.mem_iff.mp hp, h⟩
    · rintro ⟨p, hp, h⟩
      exact ⟨p, hperm.mem_iff.mpr hp, h⟩
  · intro bird pipe hl hr ht hb
    constructor
    · rw [Bool.eq_false_iff, Ne, spec]
      rintro ⟨p, hp, -, h⟩
      rw [List.mem_singleton] at hp
      subst hp
      rcases h with h | h <;> linarith
    · rw [spec]
      refine ⟨pipe, List.mem_singleton.mpr rfl, ⟨?_, ?_⟩, Or.inl ?_⟩
      · show bird.x + 18 > pipe.x
        linarith
      · show bird.x - 18 < pipe.x + pipe.width
        linarith
      · show pipe.gapCenter - pipe.gap / 2 - 1 + 18 - 18 < pipe.gapCenter - pipe.gap / 2
        linarith

/-- Witness of C2: a flyer at `(140, 300)` inside the gate spanning
`x ∈ [100, 174]` with gap `[220, 380]`, then moved so that its top is at 219. -/
theorem detectCollision_spec_witness :
    detectCollision ⟨140, 300, 0, 320⟩ [⟨100, 300, 160, 74, false⟩] = false ∧
    detectCollision { (⟨140, 300, 0, 320⟩ : Bird) with y := 300 - 160 / 2 - 1 + 18 }
      [⟨100, 300, 160, 74, false⟩] = true :=
  detectCollision_spec.2.2.2 ⟨140, 300, 0, 320⟩ ⟨100, 300, 160, 74, false⟩
    (by norm_num) (by norm_num) (by norm_num) (by norm_num)

/-! ## C1: the boundary clamp -/

/-- C1. After one tick, in any phase and from any state, with any `dt` and
`delta`, the flyer's `y` lies in `[BIRD_RADIUS, CANVAS_HEIGHT - GROUND_HEIGHT -
BIRD_RADIUS] = [18, 534]`; and whenever the position integrated by the tick
satisfies `y + 18 ≥ 552`, the resolved position is 534 and the velocity 0. -/
theorem drawFrame_position_invariant (msin : ℚ → ℚ) (s : Engine) (time dt delta rnd : ℚ) :
    BIRD_RADIUS ≤ (drawFrame msin s time dt delta rnd).bird.y ∧
    (drawFrame msin s time dt delta rnd).bird.y ≤ CANVAS_HEIGHT - GROUND_HEIGHT - BIRD_RADIUS ∧
    18 ≤ (drawFrame msin s time dt delta rnd).bird.y ∧
    (drawFrame msin s time dt delta rnd).bird.y ≤ 534 ∧
    ((beforeClamp msin s time dt delta rnd).bird.y + 18 ≥ 552 →
      (drawFrame msin s time dt delta rnd).bird.y = 534 ∧
      (drawFrame msin s time dt delta rnd).bird.velocity = 0) := by
  have hb := clampBird_y_bounds (beforeClamp msin s time dt delta rnd).bird
  have hy : (drawFrame msin s time dt delta rnd).bird
      = clampBird (beforeClamp msin s time dt delta rnd).bird := rfl
  rw [hy]
  refine ⟨?_, ?_, hb.1, hb.2, fun h => clampBird_ground _ h⟩
  · norm_num [BIRD_RADIUS]; exact hb.1
  · norm_num [BIRD_RADIUS, CANVAS_HEIGHT, GROUND_HEIGHT]; exact hb.2

/-- Witness of C1: a game-over flyer at `y = 530` falling at velocity 12
reaches the ground within one tick of `dt = 1`. -/
theorem drawFrame_position_invariant_witness :
    (drawFrame (fun _ => 0)
      ⟨⟨140, 530, 12, 320⟩, [], 0, 0, Status.gameover, 0, 0⟩ 0 1 17 0).bird.y = 534 ∧
    (drawFrame (fun _ => 0)
      ⟨⟨140, 530, 12, 320⟩, [], 0, 0, Status.gameover, 0, 0⟩ 0 1 17 0).bird.velocity = 0 :=
  (drawFrame_position_invariant (fun _ => 0)
      ⟨⟨140, 530, 12, 320⟩, [], 0, 0, Status.gameover, 0, 0⟩ 0 1 17 0).2.2.2.2
    (by simp [beforeClamp, advance, idleHover, GRAVITY]; norm_num)

/-! ## C7: restart -/

/-- C7. From any state in the gameover phase one `handleInput` yields phase
ready, score 0, the gate list `[createPipe 0 rnd]` (one gate at `x = 494` with
gap 160, unscored), the flyer at `(140, 320)` with velocity 0 and idle
baseline 320, the spawn accumulator at `0.65 * 1550`, and the same best score. -/
theorem handleInput_restart (s : Engine) (rnd : ℚ) (h : s.status = Status.gameover) :
    (handleInput s rnd).status = Status.ready ∧
    (handleInput s rnd).score = 0 ∧
    (handleInput s rnd).pipes = [createPipe 0 rnd] ∧
    (handleInput s rnd).pipes.length = 1 ∧
    (createPipe 0 rnd).x = 494 ∧ (createPipe 0 rnd).gap = 160 ∧
    (createPipe 0 rnd).width = 74 ∧ (createPipe 0 rnd).scored = false ∧
    (handleInput s rnd).bird = ⟨140, 320, 0, 320⟩ ∧
    (handleInput s rnd).spawnTimer = 0.65 * 1550 ∧
    (handleInput s rnd).bestScore = s.bestScore := by
  have hr : handleInput s rnd = resetGame s rnd := by
    simp only [handleInput, h]
  rw [hr]
  refine ⟨rfl, rfl, rfl, rfl, ?_, ?_, rfl, rfl, ?_, ?_, rfl⟩
  · norm_num [createPipe, CANVAS_WIDTH, PIPE_WIDTH]
  · norm_num [createPipe, PIPE_GAP_BASE]
  · norm_num [resetGame, CANVAS_WIDTH, CANVAS_HEIGHT]
  · norm_num [resetGame, PIPE_INTERVAL]

/-- Witness of C7: restarting after a crash at score 7 with three gates past. -/
theorem handleInput_restart_witness :
    (handleInput ⟨⟨140, 534, 0, 320⟩, [⟨50, 200, 132, 74, true⟩, ⟨300, 300, 132, 74, false⟩],
      400, 9000, Status.gameover, 7, 7⟩ (1 / 4)).score = 0 ∧
    (handleInput ⟨⟨140, 534, 0, 320⟩, [⟨50, 200, 132, 74, true⟩, ⟨300, 300, 132, 74, false⟩],
      400, 9000, Status.gameover, 7, 7⟩ (1 / 4)).bestScore = 7 := by
  have h := handleInput_restart
    ⟨⟨140, 534, 0, 320⟩, [⟨50, 200, 132, 74, true⟩, ⟨300, 300, 132, 74, false⟩],
      400, 9000, Status.gameover, 7, 7⟩ (1 / 4) rfl
  exact ⟨h.2.1, h.2.2.2.2.2.2.2.2.2.2⟩

/-! ## Phase lemmas -/

theorem idleHover_status (msin : ℚ → ℚ) (s : Engine) (time : ℚ) :
    (idleHover msin s time).status = s.status := by
  unfold idleHover; split_ifs <;> rfl

theorem idleHover_of_not_ready (msin : ℚ → ℚ) (s : Engine) (time : ℚ)
    (h : s.status ≠ Status.ready) : idleHover msin s time = s := by
  unfold idleHover; rw [if_neg h]

theorem idleHover_rest (msin : ℚ → ℚ) (s : Engine) (time : ℚ) :
    (idleHover msin s time).pipes = s.pipes ∧ (idleHover msin s time).score = s.score ∧
    (idleHover msin s time).bestScore = s.bestScore ∧
    (idleHover msin s time).spawnTimer = s.spawnTimer := by
  unfold idleHover; split_ifs <;> exact ⟨rfl, rfl, rfl, rfl⟩

theorem gameOver_of_running (s : Engine) (h : s.status = Status.running) :
    gameOver s = { s with status := Status.gameover
                          bestScore := if s.score > s.bestScore then s.score else s.bestScore } := by
  unfold gameOver; rw [if_neg (by simp [h])]

theorem advance_of_ready (s : Engine) (dt delta rnd : ℚ) (h : s.status = Status.ready) :
    advance s dt delta rnd = s := by
  unfold advance; simp [h]

theorem advance_of_gameover (s : Engine) (dt delta rnd : ℚ) (h : s.status = Status.gameover) :
    advance s dt delta rnd =
      { s with bird := { s.bird with velocity := min (s.bird.velocity + GRAVITY * dt) 12,
                                     y := s.bird.y + min (s.bird.velocity + GRAVITY * dt) 12 * dt } } := by
  unfold advance; simp [h]

theorem advance_of_running (s : Engine) (dt delta rnd : ℚ) (h : s.status = Status.running) :
    advance s dt delta rnd =
      if detectCollision (integrate s.bird dt) (runningUpdate s dt delta rnd).pipes
      then gameOver (runningUpdate s dt delta rnd) else runningUpdate s dt delta rnd := by
  unfold advance; simp [h, runningUpdate]

theorem advance_running_hit (s : Engine) (dt delta rnd : ℚ) (h : s.status = Status.running)
    (hc : detectCollision (integrate s.bird dt) (runningUpdate s dt delta rnd).pipes = true) :
    advance s dt delta rnd =
      { runningUpdate s dt delta rnd with
        status := Status.gameover
        bestScore := if (runningUpdate s dt delta rnd).score > s.bestScore
                     then (runningUpdate s dt delta rnd).score else s.bestScore } := by
  rw [advance_of_running s dt delta rnd h, if_pos hc,
    gameOver_of_running _ (show (runningUpdate s dt delta rnd).status = Status.running from h)]
  rfl

theorem advance_running_miss (s : Engine) (dt delta rnd : ℚ) (h : s.status = Status.running)
    (hc : detectCollision (integrate s.bird dt) (runningUpdate s dt delta rnd).pipes = false) :
    advance s dt delta rnd = runningUpdate s dt delta rnd := by
  rw [advance_of_running s dt delta rnd h, hc]; rfl

theorem beforeClamp_of_not_ready (msin : ℚ → ℚ) (s : Engine) (time dt delta rnd : ℚ)
    (h : s.status ≠ Status.ready) :
    beforeClamp msin s time dt delta rnd = advance s dt delta rnd := by
  unfold beforeClamp; rw [idleHover_of_not_ready msin s time h]

theorem beforeClamp_of_ready (msin : ℚ → ℚ) (s : Engine) (time dt delta rnd : ℚ)
    (h : s.status = Status.ready) :
    beforeClamp msin s time dt delta rnd = idleHover msin s time := by
  unfold beforeClamp
  exact advance_of_ready _ dt delta rnd (by rw [idleHover_status]; exact h)

theorem drawFrame_fields (msin : ℚ → ℚ) (s : Engine) (time dt delta rnd : ℚ) :
    (drawFrame msin s time dt delta rnd).status = (beforeClamp msin s time dt delta rnd).status ∧
    (drawFrame msin s time dt delta rnd).pipes = (beforeClamp msin s time dt delta rnd).pipes ∧
    (drawFrame msin s time dt delta rnd).score = (beforeClamp msin s time dt delta rnd).score ∧
    (drawFrame msin s time dt delta rnd).bestScore
      = (beforeClamp msin s time dt delta rnd).bestScore ∧
    (drawFrame msin s time dt delta rnd).spawnTimer
      = (beforeClamp msin s time dt delta rnd).spawnTimer ∧
    (drawFrame msin s time dt delta rnd).bird
      = clampBird (beforeClamp msin s time dt delta rnd).bird :=
  ⟨rfl, rfl, rfl, rfl, rfl, rfl⟩

/-- Outside the running phase a tick changes nothing but the flyer. -/
theorem beforeClamp_idle (msin : ℚ → ℚ) (s : Engine) (time dt delta rnd : ℚ)
    (h : s.status ≠ Status.running) :
    (beforeClamp msin s time dt delta rnd).status = s.status ∧
    (beforeClamp msin s time dt delta rnd).pipes = s.pipes ∧
    (beforeClamp msin s time dt delta rnd).score = s.score ∧
    (beforeClamp msin s time dt delta rnd).bestScore = s.bestScore ∧
    (beforeClamp msin s time dt delta rnd).spawnTimer = s.spawnTimer := by
  cases hs : s.status with
  | running => exact absurd hs h
  | ready =>
    rw [beforeClamp_of_ready msin s time dt delta rnd hs, idleHover_status]
    have := idleHover_rest msin s time
    exact ⟨hs, this.1, this.2.1, this.2.2.1, this.2.2.2⟩
  | gameover =>
    rw [beforeClamp_of_not_ready msin s time dt delta rnd (by simp [hs]),
      advance_of_gameover s dt delta rnd hs]
    exact ⟨hs, rfl, rfl, rfl, rfl⟩

/-- A running tick: the two outcomes of the collision check. -/
theorem beforeClamp_running (msin : ℚ → ℚ) (s : Engine) (time dt delta rnd : ℚ)
    (h : s.status = Status.running) :
    (detectCollision (integrate s.bird dt) (runningUpdate s dt delta rnd).pipes = true ∧
      beforeClamp msin s time dt delta rnd =
        { runningUpdate s dt delta rnd with
          status := Status.gameover
          bestScore := if (runningUpdate s dt delta rnd).score > s.bestScore
                       then (runningUpdate s dt delta rnd).score else s.bestScore }) ∨
    (detectCollision (integrate s.bird dt) (runningUpdate s dt delta rnd).pipes = false ∧
      beforeClamp msin s time dt delta rnd = runningUpdate s dt delta rnd) := by
  rw [beforeClamp_of_not_ready msin s time dt delta rnd (by simp [h])]
  cases hc : detectCollision (integrate s.bird dt) (runningUpdate s dt delta rnd).pipes with
  | true => exact Or.inl ⟨rfl, advance_running_hit s dt delta rnd h hc⟩
  | false => exact Or.inr ⟨rfl, advance_running_miss s dt delta rnd h hc⟩

theorem handleInput_status (s : Engine) (rnd : ℚ) :
    (handleInput s rnd).status ≠ Status.gameover := by
  cases hs : s.status <;> simp [handleInput, hs, flap, resetGame]

theorem clampBird_x (b : Bird) : (clampBird b).x = b.x := by
  unfold clampBird; split_ifs <;> rfl

/-- The clamp keeps a collision with a gate whose gap lies strictly between
the ceiling and the ground line. -/
theorem hitsPipe_clampBird (b : Bird) (pipe : Pipe)
    (htop : 0 < pipe.gapCenter - pipe.gap / 2) (hbot : pipe.gapCenter + pipe.gap / 2 < 552)
    (h : hitsPipe b pipe = true) : hitsPipe (clampBird b) pipe = true := by
  rw [hitsPipe_iff] at h ⊢
  rw [clampBird_x]
  refine ⟨h.1, ?_⟩
  unfold clampBird
  simp only [CANVAS_HEIGHT, GROUND_HEIGHT, BIRD_RADIUS]
  split_ifs with h1 h2
  · right; show (640 - 88 - 18 : ℚ) + 18 > pipe.gapCenter + pipe.gap / 2
    linarith
  · left; show (18 : ℚ) - 18 < pipe.gapCenter - pipe.gap / 2
    linarith
  · exact h.2

/-! ## C3: entering the ended phase -/

/-- C3. No input (`handleInput`, `resetGame`) ever produces the gameover phase.
A tick that ends in gameover from a phase other than gameover started in the
running phase and its collision check was true: `detectCollision` holds of the
flyer as integrated by that tick and the gate list as updated by it (and also
of the flyer after the boundary clamp when every gap of that list lies strictly
between ceiling and ground line).  A running tick whose check is false, in
particular one where no gate overlaps the flyer horizontally, stays running. -/
theorem gameover_only_by_collision (msin : ℚ → ℚ) (s : Engine) (time dt delta rnd : ℚ) :
    (handleInput s rnd).status ≠ Status.gameover ∧
    (resetGame s rnd).status ≠ Status.gameover ∧
    ((drawFrame msin s time dt delta rnd).status = Status.gameover →
      s.status ≠ Status.gameover →
        s.status = Status.running ∧
        detectCollision (integrate s.bird dt) (drawFrame msin s time dt delta rnd).pipes = true ∧
        ((∀ pipe ∈ (drawFrame msin s time dt delta rnd).pipes,
            0 < pipe.gapCenter - pipe.gap / 2 ∧ pipe.gapCenter + pipe.gap / 2 < 552) →
          detectCollision (drawFrame msin s time dt delta rnd).bird
            (drawFrame msin s time dt delta rnd).pipes = true)) ∧
    (s.status = Status.running →
      detectCollision (integrate s.bird dt) (drawFrame msin s time dt delta rnd).pipes = false →
        (drawFrame msin s time dt delta rnd).status = Status.running) ∧
    (s.status = Status.running →
      (∀ pipe ∈ (drawFrame msin s time dt delta rnd).pipes,
        ¬ (s.bird.x + 18 > pipe.x ∧ s.bird.x - 18 < pipe.x + pipe.width)) →
        (drawFrame msin s time dt delta rnd).status = Status.running) := by
  obtain ⟨hst, hpi, -, -, -, hbird⟩ := drawFrame_fields msin s time dt delta rnd
  have key : s.status = Status.running →
      detectCollision (integrate s.bird dt) (drawFrame msin s time dt delta rnd).pipes = false →
        (drawFrame msin s time dt delta rnd).status = Status.running := by
    intro hrun hmiss
    rw [hst]
    rw [hpi] at hmiss
    rcases beforeClamp_running msin s time dt delta rnd hrun with ⟨hc, heq⟩ | ⟨_, heq⟩
    · rw [heq] at hmiss
      rw [show ({ runningUpdate s dt delta rnd with
          status := Status.gameover
          bestScore := if (runningUpdate s dt delta rnd).score > s.bestScore
                       then (runningUpdate s dt delta rnd).score else s.bestScore } : Engine).pipes
          = (runningUpdate s dt delta rnd).pipes from rfl, hc] at hmiss
      exact absurd hmiss (by simp)
    · rw [heq]; exact hrun
  refine ⟨handleInput_status s rnd, by simp [resetGame], ?_, key, ?_⟩
  · intro hover hnot
    have hrun : s.status = Status.running := by
      by_contra hne
      have := (beforeClamp_idle msin s time dt delta rnd hne).1
      rw [hst, this] at hover
      exact hnot hover
    have hhit : detectCollision (integrate s.bird dt)
        (drawFrame msin s time dt delta rnd).pipes = true := by
      by_contra hne
      rw [Bool.not_eq_true] at hne
      rw [key hrun hne] at hover
      exact absurd hover (by simp)
    refine ⟨hrun, hhit, fun hband => ?_⟩
    have hb : (drawFrame msin s time dt delta rnd).bird = clampBird (integrate s.bird dt) := by
      rw [hbird]
      rcases beforeClamp_running msin s time dt delta rnd hrun with ⟨_, heq⟩ | ⟨_, heq⟩ <;>
        rw [heq] <;> rfl
    rw [hb]
    simp only [detectCollision, List.any_eq_true] at hhit ⊢
    obtain ⟨pipe, hmem, hp⟩ := hhit
    exact ⟨pipe, hmem, hitsPipe_clampBird _ pipe (hband pipe hmem).1 (hband pipe hmem).2 hp⟩
  · intro hrun hclear
    apply key hrun
    rw [Bool.eq_false_iff, Ne, detectCollision, List.any_eq_true]
    rintro ⟨pipe, hmem, hp⟩
    rw [hitsPipe_iff] at hp
    exact hclear pipe hmem hp.1

/-- Witness of C3: a running flyer at `y = 100` inside a gate whose gap is
`[220, 380]` collides on the tick and the phase becomes gameover. -/
theorem gameover_only_by_collision_witness :
    Status.running = Status.running ∧
    detectCollision (integrate ⟨140, 100, 0, 320⟩ 1)
      (drawFrame (fun _ => 0)
        ⟨⟨140, 100, 0, 320⟩, [⟨120, 300, 160, 74, false⟩], 0, 0, Status.running, 0, 0⟩
        0 1 17 0).pipes = true := by
  have h := (gameover_only_by_collision (fun _ => 0)
    ⟨⟨140, 100, 0, 320⟩, [⟨120, 300, 160, 74, false⟩], 0, 0, Status.running, 0, 0⟩
    0 1 17 0).2.2.1
    (by
      simp [drawFrame, beforeClamp, idleHover, advance, runningUpdate, survivors, pushed,
        movePipes, integrate, detectCollision, hitsPipe, gameOver, PIPE_INTERVAL, PIPE_SPEED,
        GRAVITY]
      norm_num [scorePass_cons, scorePass_nil, BIRD_RADIUS])
    (by simp)
  exact ⟨h.1, h.2.1⟩

/-! ## C4: the best score -/

/-- C4. The best score never decreases under `handleInput`, `resetGame` or a
tick; when a tick moves the phase from running to gameover, the best score
afterwards is the maximum of the best score before and the score at that
moment, so it dominates that score; and `gameOver` outside the running phase
changes nothing. -/
theorem bestScore_monotone (msin : ℚ → ℚ) (s : Engine) (time dt delta rnd : ℚ) :
    s.bestScore ≤ (handleInput s rnd).bestScore ∧
    s.bestScore ≤ (resetGame s rnd).bestScore ∧
    s.bestScore ≤ (drawFrame msin s time dt delta rnd).bestScore ∧
    (s.status = Status.running →
      (drawFrame msin s time dt delta rnd).status = Status.gameover →
        (drawFrame msin s time dt delta rnd).bestScore
          = max s.bestScore (drawFrame msin s time dt delta rnd).score ∧
        (drawFrame msin s time dt delta rnd).score
          ≤ (drawFrame msin s time dt delta rnd).bestScore) ∧
    (s.status ≠ Status.running → gameOver s = s) := by
  obtain ⟨hst, -, hsc, hbs, -, -⟩ := drawFrame_fields msin s time dt delta rnd
  have hmax : ∀ a b : ℚ, (if a > b then a else b) = max b a := by
    intro a b
    split_ifs with h
    · exact (max_eq_right (le_of_lt h)).symm
    · exact (max_eq_left (not_lt.mp h)).symm
  refine ⟨?_, le_refl _, ?_, ?_, ?_⟩
  · cases hs : s.status <;> simp [handleInput, hs, flap, resetGame]
  · rw [hbs]
    by_cases hrun : s.status = Status.running
    · rcases beforeClamp_running msin s time dt delta rnd hrun with ⟨_, heq⟩ | ⟨_, heq⟩
      · rw [heq]
        show s.bestScore ≤ if (runningUpdate s dt delta rnd).score > s.bestScore
          then (runningUpdate s dt delta rnd).score else s.bestScore
        rw [hmax]; exact le_max_left _ _
      · rw [heq]; exact le_refl _
    · rw [(beforeClamp_idle msin s time dt delta rnd hrun).2.2.2.1]
  · intro hrun hover
    rw [hst] at hover
    rw [hbs, hsc]
    rcases beforeClamp_running msin s time dt delta rnd hrun with ⟨_, heq⟩ | ⟨_, heq⟩
    · rw [heq]
      show (if (runningUpdate s dt delta rnd).score > s.bestScore
          then (runningUpdate s dt delta rnd).score else s.bestScore)
            = max s.bestScore (runningUpdate s dt delta rnd).score ∧
          (runningUpdate s dt delta rnd).score ≤
            (if (runningUpdate s dt delta rnd).score > s.bestScore
              then (runningUpdate s dt delta rnd).score else s.bestScore)
      rw [hmax]
      exact ⟨rfl, le_max_right _ _⟩
    · rw [heq] at hover
      have : (runningUpdate s dt delta rnd).status = Status.running := hrun
      rw [this] at hover
      exact absurd hover (by simp)
  · intro hne
    unfold gameOver
    rw [if_pos hne]

/-- Witness of C4: a running flyer with score 5 and best score 3 crashes into
a gate; the best score becomes 5. -/
theorem bestScore_monotone_witness :
    (drawFrame (fun _ => 0)
      ⟨⟨140, 100, 0, 320⟩, [⟨120, 300, 160, 74, false⟩], 0, 0, Status.running, 5, 3⟩
      0 1 17 0).bestScore
      = max 3 (drawFrame (fun _ => 0)
          ⟨⟨140, 100, 0, 320⟩, [⟨120, 300, 160, 74, false⟩], 0, 0, Status.running, 5, 3⟩
          0 1 17 0).score :=
  ((bestScore_monotone (fun _ => 0)
    ⟨⟨140, 100, 0, 320⟩, [⟨120, 300, 160, 74, false⟩], 0, 0, Status.running, 5, 3⟩
    0 1 17 0).2.2.2.1 rfl
    (by
      simp [drawFrame, beforeClamp, idleHover, advance, runningUpdate, survivors, pushed,
        movePipes, integrate, detectCollision, hitsPipe, gameOver, PIPE_INTERVAL, PIPE_SPEED,
        GRAVITY]
      norm_num [scorePass_cons, scorePass_nil, BIRD_RADIUS])).1

/-! ## C5: scoring -/

/-- The scoring loop keeps the list shape, only ever raises a `scored` flag,
and adds to the score the number of flags it raised. -/
theorem scorePass_spec (bird : Bird) : ∀ (pipes : List Pipe) (score : ℚ),
    (scorePass bird pipes score).1.length = pipes.length ∧
    (∀ pq ∈ pipes.zip (scorePass bird pipes score).1,
      (pq.1.scored = true → pq.2.scored = true) ∧
      pq.2 = { pq.1 with scored := pq.2.scored }) ∧
    (scorePass bird pipes score).2 =
      score + ((pipes.zip (scorePass bird pipes score).1).countP
        (fun pq => !pq.1.scored && pq.2.scored) : ℕ) := by
  intro pipes
  induction pipes with
  | nil => intro score; simp [scorePass_nil]
  | cons p rest ih =>
    intro score
    rw [scorePass_cons]
    by_cases hc : (!p.scored && decide (p.x + p.width < bird.x - BIRD_RADIUS)) = true
    · rw [if_pos hc]
      obtain ⟨hlen, hall, hsum⟩ := ih (score + 1)
      have hp : p.scored = false := by
        cases hps : p.scored
        · rfl
        · rw [hps] at hc; simp at hc
      refine ⟨by simp [hlen], ?_, ?_⟩
      · intro pq hpq
        simp only [List.zip_cons_cons, List.mem_cons] at hpq
        rcases hpq with rfl | hpq
        · exact ⟨fun _ => rfl, rfl⟩
        · exact hall pq hpq
      · simp only [List.zip_cons_cons]
        rw [List.countP_cons_of_pos _ _ (by simp [hp]), hsum]
        push_cast
        ring
    · rw [if_neg hc]
      obtain ⟨hlen, hall, hsum⟩ := ih score
      refine ⟨by simp [hlen], ?_, ?_⟩
      · intro pq hpq
        simp only [List.zip_cons_cons, List.mem_cons] at hpq
        rcases hpq with rfl | hpq
        · exact ⟨fun h => h, rfl⟩
        · exact hall pq hpq
      · simp only [List.zip_cons_cons]
        rw [List.countP_cons_of_neg _ _ (by simp), hsum]

/-- The gates alive at the scoring loop are the gates held before the tick,
plus the gate spawned by the tick if any, that stay right of the left margin
once moved, each moved by `PIPE_SPEED * dt` and otherwise untouched. -/
theorem survivors_eq (s : Engine) (dt delta rnd : ℚ) :
    survivors s dt delta rnd =
      ((s.pipes ++ (if s.spawnTimer + delta ≥ PIPE_INTERVAL
          then [createPipe s.score rnd] else [])).filter
        (fun pipe => decide (pipe.x - PIPE_SPEED * dt + pipe.width > -10))).map
        (fun pipe => { pipe with x := pipe.x - PIPE_SPEED * dt }) := by
  have hpush : pushed s delta rnd = s.pipes ++ (if s.spawnTimer + delta ≥ PIPE_INTERVAL
      then [createPipe s.score rnd] else []) := by
    unfold pushed
    split_ifs
    · rfl
    · rw [List.append_nil]
  unfold survivors movePipes
  rw [hpush, List.filter_map]
  rfl

/-- C5. In a running tick, take the gates held before the tick, followed by
the gate spawned in that tick if any (it is unscored), and keep those that
survive the tick (`x - PIPE_SPEED * dt + width > -10`).  The gate list after
the tick is that list position by position: each gate moved by
`PIPE_SPEED * dt`, no `scored` flag lowered, nothing else changed; and the
score grows by exactly the number of these gates whose flag went from false to
true, so a gate already flagged is never counted again.  In a ready or
gameover tick, and under a flap input (`flap`, or `handleInput` outside the
gameover phase), the score and the gate list with all its flags are
unchanged. -/
theorem scoring_counts_once (msin : ℚ → ℚ) (s : Engine) (time dt delta rnd : ℚ) :
    (s.status = Status.running →
      ∀ before : List Pipe,
        before = (s.pipes ++ (if s.spawnTimer + delta ≥ PIPE_INTERVAL
            then [createPipe s.score rnd] else [])).filter
          (fun pipe => decide (pipe.x - PIPE_SPEED * dt + pipe.width > -10)) →
        (createPipe s.score rnd).scored = false ∧
        (drawFrame msin s time dt delta rnd).pipes.length = before.length ∧
        (∀ pq ∈ before.zip (drawFrame msin s time dt delta rnd).pipes,
          (pq.1.scored = true → pq.2.scored = true) ∧
          pq.2 = { pq.1 with x := pq.1.x - PIPE_SPEED * dt, scored := pq.2.scored }) ∧
        (drawFrame msin s time dt delta rnd).score =
          s.score + ((before.zip (drawFrame msin s time dt delta rnd).pipes).countP
            (fun pq => !pq.1.scored && pq.2.scored) : ℕ) ∧
        s.score ≤ (drawFrame msin s time dt delta rnd).score) ∧
    (s.status ≠ Status.running →
      (drawFrame msin s time dt delta rnd).score = s.score ∧
      (drawFrame msin s time dt delta rnd).pipes = s.pipes) ∧
    ((flap s).score = s.score ∧ (flap s).pipes = s.pipes) ∧
    (s.status ≠ Status.gameover →
      (handleInput s rnd).score = s.score ∧ (handleInput s rnd).pipes = s.pipes) := by
  obtain ⟨-, hpi, hsc, -, -, -⟩ := drawFrame_fields msin s time dt delta rnd
  refine ⟨?_, ?_, ⟨rfl, rfl⟩, ?_⟩
  · intro hrun before hbefore
    have hp : (beforeClamp msin s time dt delta rnd).pipes
        = (scorePass (integrate s.bird dt) (survivors s dt delta rnd) s.score).1 := by
      rcases beforeClamp_running msin s time dt delta rnd hrun with ⟨_, heq⟩ | ⟨_, heq⟩ <;>
        rw [heq] <;> rfl
    have hs : (beforeClamp msin s time dt delta rnd).score
        = (scorePass (integrate s.bird dt) (survivors s dt delta rnd) s.score).2 := by
      rcases beforeClamp_running msin s time dt delta rnd hrun with ⟨_, heq⟩ | ⟨_, heq⟩ <;>
        rw [heq] <;> rfl
    rw [hpi, hsc, hp, hs, survivors_eq, ← hbefore]
    obtain ⟨hlen, hall, hsum⟩ := scorePass_spec (integrate s.bird dt)
      (before.map (fun pipe => { pipe with x := pipe.x - PIPE_SPEED * dt })) s.score
    rw [List.zip_map_left, List.countP_map] at hsum
    have hsum2 : (scorePass (integrate s.bird dt)
          (before.map (fun pipe => { pipe with x := pipe.x - PIPE_SPEED * dt })) s.score).2 =
        s.score + ((before.zip (scorePass (integrate s.bird dt)
          (before.map (fun pipe => { pipe with x := pipe.x - PIPE_SPEED * dt })) s.score).1).countP
            (fun pq => !pq.1.scored && pq.2.scored) : ℕ) := hsum
    refine ⟨rfl, by rw [hlen, List.length_map], ?_, hsum2, ?_⟩
    · intro pq hpq
      have hmem : ((fun pipe : Pipe => { pipe with x := pipe.x - PIPE_SPEED * dt }) pq.1, pq.2)
          ∈ (before.map (fun pipe => { pipe with x := pipe.x - PIPE_SPEED * dt })).zip
            (scorePass (integrate s.bird dt)
              (before.map (fun pipe => { pipe with x := pipe.x - PIPE_SPEED * dt })) s.score).1 := by
        rw [List.zip_map_left]
        exact List.mem_map_of_mem (Prod.map _ id) hpq
      exact hall _ hmem
    · rw [hsum2]
      exact le_add_of_nonneg_right (Nat.cast_nonneg _)
  · intro hne
    rw [hpi, hsc]
    have := beforeClamp_idle msin s time dt delta rnd hne
    exact ⟨this.2.2.1, this.2.1⟩
  · intro hne
    cases hs : s.status with
    | gameover => exact absurd hs hne
    | ready => simp [handleInput, hs, flap]
    | running => simp [handleInput, hs, flap]

/-- Witness of C5: a running tick with a gate already flagged, an unflagged
gate behind the flyer and a gate ahead; the three gates survive, the flag of
the first stays raised, and the score goes from 2 to 3. -/
theorem scoring_counts_once_witness :
    (drawFrame (fun _ => 0)
      ⟨⟨140, 300, 0, 320⟩,
        [⟨0, 300, 160, 74, true⟩, ⟨40, 300, 160, 74, false⟩, ⟨300, 300, 160, 74, false⟩],
        0, 0, Status.running, 2, 3⟩ 0 1 17 0).pipes.map Pipe.scored = [true, true, false] ∧
    (drawFrame (fun _ => 0)
      ⟨⟨140, 300, 0, 320⟩,
        [⟨0, 300, 160, 74, true⟩, ⟨40, 300, 160, 74, false⟩, ⟨300, 300, 160, 74, false⟩],
        0, 0, Status.running, 2, 3⟩ 0 1 17 0).score = 3 ∧
    (drawFrame (fun _ => 0)
      ⟨⟨140, 300, 0, 320⟩,
        [⟨0, 300, 160, 74, true⟩, ⟨40, 300, 160, 74, false⟩, ⟨300, 300, 160, 74, false⟩],
        0, 0, Status.running, 2, 3⟩ 0 1 17 0).pipes.length
      = ([⟨0, 300, 160, 74, true⟩, ⟨40, 300, 160, 74, false⟩,
          ⟨300, 300, 160, 74, false⟩] : List Pipe).length := by
  have h := (scoring_counts_once (fun _ => 0)
      ⟨⟨140, 300, 0, 320⟩,
        [⟨0, 300, 160, 74, true⟩, ⟨40, 300, 160, 74, false⟩, ⟨300, 300, 160, 74, false⟩],
        0, 0, Status.running, 2, 3⟩ 0 1 17 0).1 rfl
      [⟨0, 300, 160, 74, true⟩, ⟨40, 300, 160, 74, false⟩, ⟨300, 300, 160, 74, false⟩]
      (by simp [PIPE_INTERVAL, PIPE_SPEED]; norm_num)
  refine ⟨?_, ?_, h.2.1⟩
  all_goals
    simp [drawFrame, beforeClamp, idleHover, advance, runningUpdate, survivors, pushed,
      movePipes, integrate, detectCollision, hitsPipe, gameOver, PIPE_INTERVAL, PIPE_SPEED,
      GRAVITY]
    norm_num [scorePass_cons, scorePass_nil, BIRD_RADIUS]

/-! ## C8: repeated input -/

/-- C8, as stated, fails in the gameover phase: from a crashed state, one
`handleInput` resets to ready and the next tick leaves velocity 0, while two
restart and flap, and the same tick leaves velocity `-6.75`. -/
theorem input_idempotence_counterexample :
    (drawFrame (fun _ => 0)
      (handleInput (handleInput ⟨⟨140, 534, 0, 320⟩, [], 0, 0, Status.gameover, 0, 0⟩ 0) 0)
      0 1 17 0).bird.velocity = -6.75 ∧
    (drawFrame (fun _ => 0)
      (handleInput ⟨⟨140, 534, 0, 320⟩, [], 0, 0, Status.gameover, 0, 0⟩ 0)
      0 1 17 0).bird.velocity = 0 ∧
    (drawFrame (fun _ => 0)
      (handleInput (handleInput ⟨⟨140, 534, 0, 320⟩, [], 0, 0, Status.gameover, 0, 0⟩ 0) 0)
      0 1 17 0).bird.velocity ≠
    (drawFrame (fun _ => 0)
      (handleInput ⟨⟨140, 534, 0, 320⟩, [], 0, 0, Status.gameover, 0, 0⟩ 0)
      0 1 17 0).bird.velocity := by
  have h2 : (drawFrame (fun _ => 0)
      (handleInput (handleInput ⟨⟨140, 534, 0, 320⟩, [], 0, 0, Status.gameover, 0, 0⟩ 0) 0)
      0 1 17 0).bird.velocity = -6.75 := by
    simp [drawFrame, beforeClamp, idleHover, advance, runningUpdate, survivors, pushed,
      movePipes, integrate, detectCollision, hitsPipe, gameOver, PIPE_INTERVAL, PIPE_SPEED,
      GRAVITY, handleInput, resetGame, flap, createPipe, JUMP_STRENGTH, CANVAS_WIDTH,
      CANVAS_HEIGHT, GROUND_HEIGHT, PIPE_WIDTH, PIPE_GAP_BASE]
    norm_num [scorePass_cons, scorePass_nil, BIRD_RADIUS, clampBird, CANVAS_HEIGHT,
      GROUND_HEIGHT]
  have h1 : (drawFrame (fun _ => 0)
      (handleInput ⟨⟨140, 534, 0, 320⟩, [], 0, 0, Status.gameover, 0, 0⟩ 0)
      0 1 17 0).bird.velocity = 0 := by
    simp [drawFrame, beforeClamp, idleHover, advance, handleInput, resetGame, clampBird,
      CANVAS_HEIGHT, GROUND_HEIGHT, BIRD_RADIUS]
    norm_num
  refine ⟨h2, h1, ?_⟩
  rw [h2, h1]
  norm_num

/-- C8, amended. From any state in the ready or running phase, a second
`handleInput` with no tick in between leaves the state of the first unchanged,
so any following tick yields the same flyer velocity; the flap sets the
velocity to `JUMP_STRENGTH = -7.2` and does not add to it. -/
theorem input_idempotence (msin : ℚ → ℚ) (s : Engine) (time dt delta r1 r2 r3 rnd : ℚ)
    (h : s.status ≠ Status.gameover) :
    handleInput (handleInput s r1) r2 = handleInput s r3 ∧
    (drawFrame msin (handleInput (handleInput s r1) r2) time dt delta rnd).bird.velocity
      = (drawFrame msin (handleInput s r3) time dt delta rnd).bird.velocity ∧
    (handleInput s r1).bird.velocity = JUMP_STRENGTH ∧
    (handleInput (handleInput s r1) r2).bird.velocity = -7.2 ∧
    flap (flap s) = flap s := by
  have hh : handleInput (handleInput s r1) r2 = handleInput s r3 := by
    cases hs : s.status with
    | gameover => exact absurd hs h
    | ready => simp [handleInput, hs, flap]
    | running => simp [handleInput, hs, flap]
  have hv : ∀ r, (handleInput s r).bird.velocity = JUMP_STRENGTH := by
    intro r
    cases hs : s.status with
    | gameover => exact absurd hs h
    | ready => simp [handleInput, hs, flap]
    | running => simp [handleInput, hs, flap]
  refine ⟨hh, by rw [hh], hv r1, ?_, rfl⟩
  rw [hh, hv r3]
  norm_num [JUMP_STRENGTH]

/-- Witness of the amended C8 at the freshly mounted engine. -/
theorem input_idempotence_witness :
    handleInput (handleInput (initial 0 0) 0) 0 = handleInput (initial 0 0) 0 :=
  (input_idempotence (fun _ => 0) (initial 0 0) 0 1 17 0 0 0 0 (by simp [initial])).1

/-! ## C9: elapsed time zero or negative -/

theorem integrate_zero (b : Bird) : integrate b 0 = b := by
  simp [integrate]

theorem movePipes_zero (pipes : List Pipe) :
    movePipes pipes 0 = pipes.filter (fun pipe => decide (pipe.x + pipe.width > -10)) := by
  simp [movePipes]

theorem scorePass_map_x (bird : Bird) : ∀ (pipes : List Pipe) (score : ℚ),
    (scorePass bird pipes score).1.map Pipe.x = pipes.map Pipe.x := by
  intro pipes
  induction pipes with
  | nil => intro score; rfl
  | cons p rest ih =>
    intro score
    rw [scorePass_cons]
    split_ifs
    · simp [ih]
    · simp [ih]

/-- C9, as stated, fails for negative elapsed time: with `lastTime = 100` and
`time = 50` the tick runs with `dt = -3`; the flyer moves from `y = 320` to
`324.05` with velocity `-1.35`, the gate moves from `x = 300` to `308.25`, and
the accumulator goes from 0 to `-50`. -/
theorem negative_elapsed_counterexample :
    (50 : ℚ) - 100 ≤ 0 ∧
    (clampBird ⟨140, 320, 0, 320⟩).y = 320 ∧
    (render (fun _ => 0)
      ⟨⟨140, 320, 0, 320⟩, [⟨300, 300, 160, 74, false⟩], 0, 100, Status.running, 0, 0⟩
      50 0).bird.y = 324.05 ∧
    (render (fun _ => 0)
      ⟨⟨140, 320, 0, 320⟩, [⟨300, 300, 160, 74, false⟩], 0, 100, Status.running, 0, 0⟩
      50 0).bird.velocity = -1.35 ∧
    (render (fun _ => 0)
      ⟨⟨140, 320, 0, 320⟩, [⟨300, 300, 160, 74, false⟩], 0, 100, Status.running, 0, 0⟩
      50 0).pipes.map Pipe.x = [308.25] ∧
    (render (fun _ => 0)
      ⟨⟨140, 320, 0, 320⟩, [⟨300, 300, 160, 74, false⟩], 0, 100, Status.running, 0, 0⟩
      50 0).spawnTimer = -50 := by
  have hdt : min ((50 : ℚ) - 100) 34 / (1000 / 60) = -3 := by
    rw [min_eq_left (by norm_num)]; norm_num
  refine ⟨by norm_num, ?_, ?_, ?_, ?_, ?_⟩
  · simp [clampBird, CANVAS_HEIGHT, GROUND_HEIGHT, BIRD_RADIUS]; norm_num
  all_goals
    simp [render, FRAME_TIME, hdt, drawFrame, beforeClamp, idleHover, advance, runningUpdate,
      survivors, pushed, movePipes, integrate, detectCollision, hitsPipe, gameOver,
      PIPE_INTERVAL, PIPE_SPEED, GRAVITY, spawnTimerAfter]
    norm_num [scorePass_cons, scorePass_nil, BIRD_RADIUS, clampBird, CANVAS_HEIGHT,
      GROUND_HEIGHT]

/-- C9, amended. In the running phase, when `render` computes an elapsed time
of zero (`time = lastTime`, or `lastTime` unset, i.e. 0) and the accumulator is
below `PIPE_INTERVAL`, the tick leaves the flyer's position and velocity equal
to their values before the tick up to the boundary clamp, leaves the
accumulator unchanged, and leaves the horizontal position of every gate still
alive (`x + width > -10`) unchanged. -/
theorem zero_elapsed_no_motion (msin : ℚ → ℚ) (s : Engine) (time rnd : ℚ)
    (hrun : s.status = Status.running) (hzero : s.lastTime = 0 ∨ time = s.lastTime)
    (hsp : s.spawnTimer < PIPE_INTERVAL) :
    (render msin s time rnd).bird = clampBird s.bird ∧
    (render msin s time rnd).spawnTimer = s.spawnTimer ∧
    (render msin s time rnd).pipes.map Pipe.x
      = (s.pipes.filter (fun pipe => decide (pipe.x + pipe.width > -10))).map Pipe.x ∧
    ((∀ pipe ∈ s.pipes, pipe.x + pipe.width > -10) →
      (render msin s time rnd).pipes.map Pipe.x = s.pipes.map Pipe.x) := by
  have hdelta : time - (if s.lastTime = 0 then time else s.lastTime) = 0 := by
    split_ifs with h0
    · exact sub_self time
    · rcases hzero with h | h
      · exact absurd h h0
      · rw [h]; exact sub_self _
  have hr : render msin s time rnd
      = drawFrame msin { s with lastTime := time } time 0 0 rnd := by
    unfold render
    simp only [hdelta]
    norm_num
  have hrun2 : ({ s with lastTime := time } : Engine).status = Status.running := hrun
  obtain ⟨-, hpi, -, -, hst, hbird⟩ :=
    drawFrame_fields msin { s with lastTime := time } time 0 0 rnd
  have hfields : (beforeClamp msin { s with lastTime := time } time 0 0 rnd).bird
        = integrate s.bird 0 ∧
      (beforeClamp msin { s with lastTime := time } time 0 0 rnd).spawnTimer
        = spawnTimerAfter { s with lastTime := time } 0 ∧
      (beforeClamp msin { s with lastTime := time } time 0 0 rnd).pipes
        = (scorePass (integrate s.bird 0)
            (survivors { s with lastTime := time } 0 0 rnd) s.score).1 := by
    rcases beforeClamp_running msin { s with lastTime := time } time 0 0 rnd hrun2
      with ⟨_, heq⟩ | ⟨_, heq⟩ <;> rw [heq] <;> exact ⟨rfl, rfl, rfl⟩
  have hnospawn : ¬ (s.spawnTimer + 0 ≥ PIPE_INTERVAL) := by
    rw [add_zero]; exact not_le.mpr hsp
  have hx : (render msin s time rnd).pipes.map Pipe.x
      = (s.pipes.filter (fun pipe => decide (pipe.x + pipe.width > -10))).map Pipe.x := by
    rw [hr, hpi, hfields.2.2, scorePass_map_x]
    unfold survivors pushed
    rw [movePipes_zero]
    show (List.filter _ (if s.spawnTimer + 0 ≥ PIPE_INTERVAL then _ else s.pipes)).map Pipe.x = _
    rw [if_neg hnospawn]
  refine ⟨?_, ?_, hx, ?_⟩
  · rw [hr, hbird, hfields.1, integrate_zero]
  · rw [hr, hst, hfields.2.1]
    unfold spawnTimerAfter
    show (if s.spawnTimer + 0 ≥ PIPE_INTERVAL then 0 else s.spawnTimer + 0) = s.spawnTimer
    rw [if_neg hnospawn, add_zero]
  · intro hall
    rw [hx, List.filter_eq_self.mpr]
    intro pipe hmem
    exact decide_eq_true (hall pipe hmem)

/-- Witness of the amended C9: a repeated timestamp in mid-flight. -/
theorem zero_elapsed_no_motion_witness :
    (render (fun _ => 0)
      ⟨⟨140, 320, -3, 320⟩, [⟨300, 300, 160, 74, false⟩], 500, 100, Status.running, 0, 0⟩
      100 0).bird = clampBird ⟨140, 320, -3, 320⟩ :=
  (zero_elapsed_no_motion (fun _ => 0)
    ⟨⟨140, 320, -3, 320⟩, [⟨300, 300, 160, 74, false⟩], 500, 100, Status.running, 0, 0⟩
    100 0 rfl (Or.inr rfl) (by norm_num [PIPE_INTERVAL])).1

/-- With zero elapsed time an accumulator already at `PIPE_INTERVAL` is still
reset and a gate is still spawned: the bound on the accumulator in
`zero_elapsed_no_motion` cannot be dropped. -/
theorem zero_elapsed_spawn_example :
    (render (fun _ => 0)
      ⟨⟨140, 320, 0, 320⟩, [], 1550, 100, Status.running, 0, 0⟩ 100 0).spawnTimer = 0 ∧
    (render (fun _ => 0)
      ⟨⟨140, 320, 0, 320⟩, [], 1550, 100, Status.running, 0, 0⟩ 100 0).pipes.map Pipe.x
      = [494] := by
  constructor
  all_goals
    simp [render, FRAME_TIME, drawFrame, beforeClamp, idleHover, advance, runningUpdate,
      survivors, pushed, movePipes, integrate, detectCollision, hitsPipe, gameOver,
      PIPE_INTERVAL, PIPE_SPEED, GRAVITY, spawnTimerAfter, createPipe, CANVAS_WIDTH,
      PIPE_WIDTH, PIPE_GAP_BASE, CANVAS_HEIGHT, GROUND_HEIGHT]
    norm_num [scorePass_cons, scorePass_nil, BIRD_RADIUS, clampBird, CANVAS_HEIGHT,
      GROUND_HEIGHT]

/-! ## C10: the fall after a crash -/

/-- C10, as stated, fails when the flyer crashes while still rising: in the
gameover phase with velocity `-7.2` at `y = 320`, a tick with `dt = 1` moves the
flyer up to `313.25`, which is neither at or below its old position nor the
ground clamp. -/
theorem death_animation_counterexample :
    (0 : ℚ) ≤ 1 ∧
    (drawFrame (fun _ => 0)
      ⟨⟨140, 320, -7.2, 320⟩, [], 0, 0, Status.gameover, 0, 0⟩ 0 1 17 0).bird.y = 313.25 ∧
    ¬ ((320 : ℚ) ≤ (drawFrame (fun _ => 0)
      ⟨⟨140, 320, -7.2, 320⟩, [], 0, 0, Status.gameover, 0, 0⟩ 0 1 17 0).bird.y) ∧
    (drawFrame (fun _ => 0)
      ⟨⟨140, 320, -7.2, 320⟩, [], 0, 0, Status.gameover, 0, 0⟩ 0 1 17 0).bird.y ≠ 534 := by
  have hy : (drawFrame (fun _ => 0)
      ⟨⟨140, 320, -7.2, 320⟩, [], 0, 0, Status.gameover, 0, 0⟩ 0 1 17 0).bird.y = 313.25 := by
    simp [drawFrame, beforeClamp, idleHover, advance, GRAVITY]
    norm_num [clampBird, CANVAS_HEIGHT, GROUND_HEIGHT, BIRD_RADIUS]
  refine ⟨by norm_num, hy, ?_, ?_⟩ <;> rw [hy] <;> norm_num

/-- C10, amended. In the gameover phase a tick with `dt ≥ 0` leaves the
velocity at most 12 and leaves the gate list, the score and the phase
unchanged; and when the velocity after gravity, `velocity + GRAVITY * dt`, is
not negative, the position after the tick is at least the position before or
is the ground clamp 534 (hence at least the position before whenever that was
at most 534). -/
theorem death_animation (msin : ℚ → ℚ) (s : Engine) (time dt delta rnd : ℚ)
    (hover : s.status = Status.gameover) (hdt : 0 ≤ dt) :
    (drawFrame msin s time dt delta rnd).bird.velocity ≤ 12 ∧
    (0 ≤ s.bird.velocity + GRAVITY * dt →
      s.bird.y ≤ (drawFrame msin s time dt delta rnd).bird.y ∨
      (drawFrame msin s time dt delta rnd).bird.y = 534) ∧
    (0 ≤ s.bird.velocity + GRAVITY * dt → s.bird.y ≤ 534 →
      s.bird.y ≤ (drawFrame msin s time dt delta rnd).bird.y) ∧
    (drawFrame msin s time dt delta rnd).pipes = s.pipes ∧
    (drawFrame msin s time dt delta rnd).score = s.score ∧
    (drawFrame msin s time dt delta rnd).status = Status.gameover := by
  obtain ⟨hst, hpi, hsc, -, -, hbird⟩ := drawFrame_fields msin s time dt delta rnd
  have hidle := beforeClamp_idle msin s time dt delta rnd (by simp [hover])
  have hb : (beforeClamp msin s time dt delta rnd).bird
      = { s.bird with velocity := min (s.bird.velocity + GRAVITY * dt) 12,
                      y := s.bird.y + min (s.bird.velocity + GRAVITY * dt) 12 * dt } := by
    rw [beforeClamp_of_not_ready msin s time dt delta rnd (by simp [hover]),
      advance_of_gameover s dt delta rnd hover]
  have hcap : min (s.bird.velocity + GRAVITY * dt) 12 ≤ 12 := min_le_right _ _
  have hpos : 0 ≤ s.bird.velocity + GRAVITY * dt →
      s.bird.y ≤ s.bird.y + min (s.bird.velocity + GRAVITY * dt) 12 * dt := by
    intro hv
    have : 0 ≤ min (s.bird.velocity + GRAVITY * dt) 12 * dt :=
      mul_nonneg (le_min hv (by norm_num)) hdt
    linarith
  have hyv : (drawFrame msin s time dt delta rnd).bird.velocity ≤ 12 ∧
      (0 ≤ s.bird.velocity + GRAVITY * dt →
        s.bird.y ≤ (drawFrame msin s time dt delta rnd).bird.y ∨
        (drawFrame msin s time dt delta rnd).bird.y = 534) := by
    rw [hbird, hb]
    unfold clampBird
    simp only [CANVAS_HEIGHT, GROUND_HEIGHT, BIRD_RADIUS]
    split_ifs with h1 h2
    · exact ⟨by norm_num, fun _ => Or.inr (by norm_num)⟩
    · refine ⟨max_le (by norm_num) hcap, fun hv => Or.inl ?_⟩
      have := hpos hv
      show s.bird.y ≤ 18
      linarith
    · exact ⟨hcap, fun hv => Or.inl (hpos hv)⟩
  refine ⟨hyv.1, hyv.2, ?_, by rw [hpi]; exact hidle.2.1, by rw [hsc]; exact hidle.2.2.1,
    by rw [hst, hidle.1]; exact hover⟩
  intro hv hle
  rcases hyv.2 hv with h | h
  · exact h
  · rw [h]; exact hle

/-- Witness of the amended C10: a crashed flyer at rest at `y = 300`. -/
theorem death_animation_witness :
    (drawFrame (fun _ => 0)
      ⟨⟨140, 300, 0, 320⟩, [], 0, 0, Status.gameover, 4, 9⟩ 0 1 17 0).bird.velocity ≤ 12 ∧
    (300 : ℚ) ≤ (drawFrame (fun _ => 0)
      ⟨⟨140, 300, 0, 320⟩, [], 0, 0, Status.gameover, 4, 9⟩ 0 1 17 0).bird.y := by
  have h := death_animation (fun _ => 0)
    ⟨⟨140, 300, 0, 320⟩, [], 0, 0, Status.gameover, 4, 9⟩ 0 1 17 0 rfl (by norm_num)
  exact ⟨h.1, h.2.2.1 (by norm_num [GRAVITY]) (by norm_num)⟩

end FlappyFlight
